import Mathlib

/-
Shallow embedding of scikits/cuda/fft.py: the CUFFT Plan class, the
internal transform routine, and the fft/ifft entry points, together with
a small model of the device-memory and engine collaborators that the
module drives.
-/

namespace Skcuda

/-- NumPy dtype tags as compared by fft.py: the four transform dtypes plus
further numeric dtypes so that unsupported pairs exist in the model. -/
inductive Dtype where
  | float16
  | float32
  | float64
  | complex64
  | complex128
  | int32
  deriving DecidableEq, Repr

/-- The float scalar types of numpy (np.sctypes at key float), restricted to
the dtypes modelled here. -/
def sctypesFloat : List Dtype := [.float16, .float32, .float64]

/-- The complex scalar types of numpy (np.sctypes at key complex), restricted
to the dtypes modelled here. -/
def sctypesComplex : List Dtype := [.complex64, .complex128]

/-- CUFFT transform-kind constants (CUFFT_R2C and so on). -/
inductive FftType where
  | r2c
  | c2r
  | c2c
  | d2z
  | z2d
  | z2z
  deriving DecidableEq, Repr

/-- CUFFT execution primitives (cufftExecR2C and so on). -/
inductive ExecPrim where
  | execR2C
  | execC2R
  | execC2C
  | execD2Z
  | execZ2D
  | execZ2Z
  deriving DecidableEq, Repr

/-- Modelled from the spec: the Forward direction flag of the cufft wrapper
module (the wrapper itself is not under src); the standard CUFFT value. -/
def CUFFT_FORWARD : Int := -1

/-- Modelled from the spec: the Inverse direction flag of the cufft wrapper
module (the wrapper itself is not under src); the standard CUFFT value. -/
def CUFFT_INVERSE : Int := 1

/-- The failures raised by fft.py as ValueError, tagged by the error classes
the spec names for the distinct messages. -/
inductive FftError where
  | unsupportedTypeCombination
  | unsupportedRank
  | illegalInPlaceTransform
  | illegalDirectionForKind
  deriving DecidableEq, Repr

/-- The rank-specific cufftPlan creation call made by Plan.__init__, with the
arguments in the order the source passes them. -/
inductive PlanCall where
  | plan1d (nx : Int) (t : FftType) (batch : Int)
  | plan2d (nx ny : Int) (t : FftType)
  | plan3d (nx ny nz : Int) (t : FftType)
  deriving DecidableEq, Repr

/-- The Plan object of fft.py after a successful __init__: stored shape,
dtypes, transform type, execution primitive, engine handle, and a record of
the creation call that produced the handle. -/
structure Plan where
  shape : List Int
  in_dtype : Dtype
  out_dtype : Dtype
  fft_type : FftType
  fft_func : ExecPrim
  handle : Nat
  createCall : PlanCall
  deriving DecidableEq, Repr

/-- The shape argument of Plan.__init__: np.isscalar distinguishes a bare
number from a tuple of dimensions. -/
inductive ShapeArg where
  | scalar (n : Int)
  | tuple (dims : List Int)
  deriving DecidableEq, Repr

/-- The normalisation at the top of Plan.__init__: a scalar shape is wrapped
into a 1-tuple, a tuple is stored as given. -/
def ShapeArg.toShape : ShapeArg → List Int
  | .scalar n => [n]
  | .tuple ds => ds

/-- The dtype dispatch chain of Plan.__init__ (fft.py lines 45 to 65),
selecting the transform type and the execution primitive, or failing with
the unsupported-type-combination error. -/
def resolveType (in_dtype out_dtype : Dtype) : Except FftError (FftType × ExecPrim) :=
  if in_dtype = .float32 ∧ out_dtype = .complex64 then
    .ok (.r2c, .execR2C)
  else if in_dtype = .complex64 ∧ out_dtype = .float32 then
    .ok (.c2r, .execC2R)
  else if in_dtype = .complex64 ∧ out_dtype = .complex64 then
    .ok (.c2c, .execC2C)
  else if in_dtype = .float64 ∧ out_dtype = .complex128 then
    .ok (.d2z, .execD2Z)
  else if in_dtype = .complex128 ∧ out_dtype = .float64 then
    .ok (.z2d, .execZ2D)
  else if in_dtype = .complex128 ∧ out_dtype = .complex128 then
    .ok (.z2z, .execZ2Z)
  else
    .error .unsupportedTypeCombination

/-- Plan.__init__ (fft.py lines 35 to 78): normalise the shape, resolve the
dtype pair, then branch on the rank to make the matching cufftPlan call.
The handle argument stands for the value the engine call returns. -/
def Plan.init (shape : ShapeArg) (in_dtype out_dtype : Dtype) (handle : Nat) :
    Except FftError Plan :=
  match resolveType in_dtype out_dtype with
  | .error e => .error e
  | .ok (t, f) =>
    match shape.toShape with
    | [n] => .ok ⟨[n], in_dtype, out_dtype, t, f, handle, .plan1d n t 1⟩
    | [n, m] => .ok ⟨[n, m], in_dtype, out_dtype, t, f, handle, .plan2d n m t⟩
    | [n, m, k] => .ok ⟨[n, m, k], in_dtype, out_dtype, t, f, handle, .plan3d n m k t⟩
    | _ => .error .unsupportedRank

/-- Engine-side bookkeeping for cufftDestroy: the handles released so far. -/
structure CufftState where
  destroyed : List Nat
  deriving DecidableEq, Repr

/-- cufftDestroy: record the handle as released. -/
def cufftDestroy (cs : CufftState) (h : Nat) : CufftState :=
  ⟨h :: cs.destroyed⟩

/-- Plan.__del__ (fft.py lines 80 to 81): destroy the engine handle. The Plan
record itself is not changed and keeps its handle field. -/
def Plan.del (plan : Plan) (cs : CufftState) : CufftState :=
  cufftDestroy cs plan.handle

/-- A pycuda GPUArray descriptor as fft.py reads it: raw device pointer,
element count, element dtype. -/
structure GPUArray where
  gpudata : Nat
  size : Nat
  dtype : Dtype
  deriving DecidableEq, Repr

/-- Device memory (contents per device pointer) plus a bump allocator giving
the pointer of the next fresh buffer. -/
structure DevState where
  mem : Nat → List ℚ
  next : Nat

/-- One invocation of a cufftExec primitive: the primitive, the plan handle,
the two device pointers, and the direction flag when one is passed (only the
complex-to-complex call takes one). -/
structure ExecCall where
  func : ExecPrim
  handle : Nat
  inPtr : Nat
  outPtr : Nat
  direction : Option Int
  deriving DecidableEq, Repr

/-- The transform engine as an external collaborator: given the call and the
current memory, the contents it writes into the output buffer. -/
def Engine := ExecCall → (Nat → List ℚ) → List ℚ

/-- The cufftExec invocation built by the execution branch of the internal
transform routine (fft.py lines 123 to 128): the direction flag is passed
exactly when the transform type is complex to complex. -/
def mkExecCall (plan : Plan) (x_gpu y_gpu : GPUArray) (direction : Int) : ExecCall :=
  if plan.fft_type = .c2c ∨ plan.fft_type = .z2z then
    ⟨plan.fft_func, plan.handle, x_gpu.gpudata, y_gpu.gpudata, some direction⟩
  else
    ⟨plan.fft_func, plan.handle, x_gpu.gpudata, y_gpu.gpudata, none⟩

/-- Effect of one engine call on device memory: the engine writes the output
buffer, everything else is untouched and no allocation happens. -/
def engineStep (engine : Engine) (st : DevState) (call : ExecCall) : DevState :=
  ⟨fun p => if p = call.outPtr then engine call st.mem else st.mem p, st.next⟩

/-- Modelled from the spec: the numeric cast np.cast of the scale factor into
the output dtype. The devices use floating point, whose rounding is not
modelled; the cast is recorded structurally and treated as exact. -/
def npCast (_dt : Dtype) (x : ℚ) : ℚ := x

/-- Modelled from the spec: the elementwise division of a pycuda GPUArray by
a scalar. Per the spec (section 9 open question) the division produces a new
buffer rather than mutating the old one; the model allocates it at the bump
pointer. fft.py then reassigns the gpudata field of the output descriptor to
the pointer of the new buffer. -/
def scaleStep (st : DevState) (y_gpu : GPUArray) (scale : ℚ) : DevState × GPUArray :=
  let divisor := npCast y_gpu.dtype scale
  let newData := (st.mem y_gpu.gpudata).map (fun v => v / divisor)
  (⟨fun p => if p = st.next then newData else st.mem p, st.next + 1⟩,
   { y_gpu with gpudata := st.next })

/-- The result of one call of the internal transform routine: the raised
error if any, the final device state, the output descriptor as the caller
sees it afterwards, and the trace of engine primitive invocations. A raised
ValueError leaves state, descriptor and trace untouched. -/
structure FftOutcome where
  error : Option FftError
  st : DevState
  y : GPUArray
  calls : List ExecCall

/-- The internal transform routine of fft.py (lines 84 to 132, the module
function whose name is a single leading underscore before fft): the three
validation checks in source order, the primitive invocation, and the
optional scaling step. -/
def fftInternal (engine : Engine) (st : DevState) (x_gpu y_gpu : GPUArray)
    (plan : Plan) (direction : Int) (scale : Option ℚ) : FftOutcome :=
  if x_gpu.gpudata = y_gpu.gpudata ∧
      ¬(plan.fft_type = .c2c ∨ plan.fft_type = .z2z) then
    ⟨some .illegalInPlaceTransform, st, y_gpu, []⟩
  else if direction = CUFFT_FORWARD ∧ plan.in_dtype ∈ sctypesComplex ∧
      plan.out_dtype ∈ sctypesFloat then
    ⟨some .illegalDirectionForKind, st, y_gpu, []⟩
  else if direction = CUFFT_INVERSE ∧ plan.in_dtype ∈ sctypesFloat ∧
      plan.out_dtype ∈ sctypesComplex then
    ⟨some .illegalDirectionForKind, st, y_gpu, []⟩
  else
    let call := mkExecCall plan x_gpu y_gpu direction
    let st1 := engineStep engine st call
    match scale with
    | none => ⟨none, st1, y_gpu, [call]⟩
    | some s =>
      let r := scaleStep st1 y_gpu s
      ⟨none, r.1, r.2, [call]⟩

/-- fft.py fft (lines 180 to 183): forward transform, scaling by the input
element count when requested. -/
def fft (engine : Engine) (st : DevState) (x_gpu y_gpu : GPUArray)
    (plan : Plan) (scale : Bool) : FftOutcome :=
  if scale = true then
    fftInternal engine st x_gpu y_gpu plan CUFFT_FORWARD (some (x_gpu.size : ℚ))
  else
    fftInternal engine st x_gpu y_gpu plan CUFFT_FORWARD none

/-- fft.py ifft (lines 227 to 230): inverse transform, scaling by the output
element count when requested. -/
def ifft (engine : Engine) (st : DevState) (x_gpu y_gpu : GPUArray)
    (plan : Plan) (scale : Bool) : FftOutcome :=
  if scale = true then
    fftInternal engine st x_gpu y_gpu plan CUFFT_INVERSE (some (y_gpu.size : ℚ))
  else
    fftInternal engine st x_gpu y_gpu plan CUFFT_INVERSE none

/-- The six-entry dispatch table exactly as the spec states it, for
comparison against the dispatch chain of the source. -/
def specDispatchTable (i o : Dtype) : Option (FftType × ExecPrim) :=
  match i, o with
  | .float32, .complex64 => some (.r2c, .execR2C)
  | .complex64, .float32 => some (.c2r, .execC2R)
  | .complex64, .complex64 => some (.c2c, .execC2C)
  | .float64, .complex128 => some (.d2z, .execD2Z)
  | .complex128, .float64 => some (.z2d, .execZ2D)
  | .complex128, .complex128 => some (.z2z, .execZ2Z)
  | _, _ => none

/-
Concrete fixtures used by witnesses and counterexamples.
-/

/-- A trivial engine whose transform writes an empty buffer. -/
def engine0 : Engine := fun _ _ => []

/-- An engine that writes the fixed contents 4, 6 into the output buffer. -/
def engineC6 : Engine := fun _ _ => [4, 6]

/-- An empty device memory with bump pointer 100. -/
def st0 : DevState := ⟨fun _ => [], 100⟩

/-- An empty device memory with bump pointer 10. -/
def stC6 : DevState := ⟨fun _ => [], 10⟩

/-- A buffer descriptor at device pointer 1. -/
def buf1 : GPUArray := ⟨1, 4, .complex64⟩

/-- A buffer descriptor at device pointer 2. -/
def buf2 : GPUArray := ⟨2, 4, .complex64⟩

/-- A two-element input buffer at device pointer 1. -/
def bufIn : GPUArray := ⟨1, 2, .complex64⟩

/-- A two-element output buffer at device pointer 2. -/
def bufOut : GPUArray := ⟨2, 2, .complex64⟩

/-- The plan built by Plan.init from shape 4, complex64 to complex64. -/
def planC2C : Plan := ⟨[4], .complex64, .complex64, .c2c, .execC2C, 7, .plan1d 4 .c2c 1⟩

/-- The plan built by Plan.init from shape 4, complex128 to float64. -/
def planZ2D : Plan := ⟨[4], .complex128, .float64, .z2d, .execZ2D, 3, .plan1d 4 .z2d 1⟩

/-- The plan built by Plan.init from shape 8, float32 to complex64. -/
def planR2C8 : Plan := ⟨[8], .float32, .complex64, .r2c, .execR2C, 0, .plan1d 8 .r2c 1⟩

/-
Helper lemmas about the embedded definitions.
-/

/-- The dispatch chain of the source agrees pointwise with the spec table. -/
theorem resolveType_eq_table (i o : Dtype) :
    resolveType i o =
      (match specDispatchTable i o with
       | some tf => .ok tf
       | none => .error .unsupportedTypeCombination) := by
  cases i <;> cases o <;> rfl

/-- The only construction-time dtype failure is the unsupported-combination
error. -/
theorem resolveType_error_eq (i o : Dtype) (e : FftError)
    (h : resolveType i o = .error e) : e = .unsupportedTypeCombination := by
  cases i <;> cases o <;> simp_all [resolveType]

/-- A complex-to-complex resolution forces both dtypes to be complex scalar
types and not float scalar types. -/
theorem resolveType_cc_dtypes (i o : Dtype) (t : FftType) (f : ExecPrim)
    (hres : resolveType i o = .ok (t, f)) (ht : t = .c2c ∨ t = .z2z) :
    i ∈ sctypesComplex ∧ o ∈ sctypesComplex ∧
    i ∉ sctypesFloat ∧ o ∉ sctypesFloat := by
  cases i <;> cases o <;>
    simp_all [resolveType, sctypesComplex, sctypesFloat] <;>
    rcases ht with rfl | rfl <;> simp_all

/-- Fields of a successfully constructed plan: the dtype pair resolved to its
transform type and primitive, and the stored dtypes, shape and handle are the
arguments given. -/
theorem Plan.init_ok (shape : ShapeArg) (i o : Dtype) (h : Nat) (p : Plan)
    (hp : Plan.init shape i o h = .ok p) :
    resolveType i o = .ok (p.fft_type, p.fft_func) ∧
    p.in_dtype = i ∧ p.out_dtype = o ∧ p.shape = shape.toShape ∧ p.handle = h := by
  unfold Plan.init at hp
  cases hres : resolveType i o with
  | error e => rw [hres] at hp; cases hp
  | ok tf =>
    obtain ⟨t, f⟩ := tf
    rw [hres] at hp
    cases hs : shape.toShape with
    | nil => rw [hs] at hp; cases hp
    | cons a l =>
      cases l with
      | nil => rw [hs] at hp; injection hp with hp; subst hp; simp_all
      | cons b l2 =>
        cases l2 with
        | nil => rw [hs] at hp; injection hp with hp; subst hp; simp_all
        | cons c l3 =>
          cases l3 with
          | nil => rw [hs] at hp; injection hp with hp; subst hp; simp_all
          | cons d l4 => rw [hs] at hp; cases hp

/-- Whenever the internal transform routine reports no error, its trace is
exactly one primitive invocation, the one built by mkExecCall. -/
theorem fftInternal_ok_calls (engine : Engine) (st : DevState)
    (x_gpu y_gpu : GPUArray) (plan : Plan) (direction : Int) (scale : Option ℚ)
    (hok : (fftInternal engine st x_gpu y_gpu plan direction scale).error = none) :
    (fftInternal engine st x_gpu y_gpu plan direction scale).calls =
      [mkExecCall plan x_gpu y_gpu direction] := by
  unfold fftInternal at hok ⊢
  split_ifs at hok ⊢
  cases scale <;> rfl

/-
Claim theorems.
-/

/-- C1: plan construction selects exactly the transform kind and execution
primitive given by the six-entry dispatch table, and for any dtype pair
outside these six it fails with the unsupported-type-combination error. -/
theorem c1_dispatch_table (shape : ShapeArg) (i o : Dtype) (h : Nat) :
    (specDispatchTable i o = none →
      Plan.init shape i o h = .error .unsupportedTypeCombination) ∧
    (∀ t f p, specDispatchTable i o = some (t, f) →
      Plan.init shape i o h = .ok p →
      p.fft_type = t ∧ p.fft_func = f) := by
  constructor
  · intro hnone
    unfold Plan.init
    rw [resolveType_eq_table, hnone]
  · intro t f p hsome hp
    have h1 := (Plan.init_ok shape i o h p hp).1
    rw [resolveType_eq_table, hsome] at h1
    injection h1 with h1
    injection h1 with h1 h2
    exact ⟨h1.symm, h2.symm⟩

/-- Witness for C1: the pair int32 to float32 is rejected, and the plan
built for float32 to complex64 carries the R2C kind and primitive. -/
theorem c1_witness :
    (Plan.init (.scalar 8) .int32 .float32 0 =
      .error .unsupportedTypeCombination) ∧
    (planR2C8.fft_type = .r2c ∧ planR2C8.fft_func = .execR2C) :=
  ⟨(c1_dispatch_table (.scalar 8) .int32 .float32 0).1 rfl,
   (c1_dispatch_table (.scalar 8) .float32 .complex64 0).2
     .r2c .execR2C planR2C8 rfl rfl⟩

/-- C2: with aliased input and output pointers, execution fails with the
in-place error unless the transform type is complex to complex; on a
constructed complex-to-complex plan the rule passes and the primitive is
invoked. -/
theorem c2_in_place (engine : Engine) (st : DevState) (x_gpu y_gpu : GPUArray)
    (plan : Plan) (direction : Int) (scale : Option ℚ)
    (hptr : x_gpu.gpudata = y_gpu.gpudata) :
    (¬(plan.fft_type = .c2c ∨ plan.fft_type = .z2z) →
      (fftInternal engine st x_gpu y_gpu plan direction scale).error =
        some .illegalInPlaceTransform) ∧
    ((plan.fft_type = .c2c ∨ plan.fft_type = .z2z) →
      ∀ shape i o h, Plan.init shape i o h = .ok plan →
        (fftInternal engine st x_gpu y_gpu plan direction scale).error = none ∧
        (fftInternal engine st x_gpu y_gpu plan direction scale).calls =
          [mkExecCall plan x_gpu y_gpu direction]) := by
  constructor
  · intro hk
    unfold fftInternal
    rw [if_pos ⟨hptr, hk⟩]
  · intro hk shape i o h hp
    obtain ⟨hres, hi, ho, -, -⟩ := Plan.init_ok shape i o h plan hp
    obtain ⟨-, -, hif, hof⟩ :=
      resolveType_cc_dtypes i o plan.fft_type plan.fft_func hres hk
    unfold fftInternal
    rw [if_neg, if_neg, if_neg]
    · cases scale <;> exact ⟨rfl, rfl⟩
    · rintro ⟨-, hfl, -⟩
      rw [hi] at hfl
      exact hif hfl
    · rintro ⟨-, -, hfl⟩
      rw [ho] at hfl
      exact hof hfl
    · rintro ⟨-, hnk⟩
      exact hnk hk

/-- Witness for C2: aliased execution on the R2C plan raises the in-place
error, aliased execution on the complex-to-complex plan reports none. -/
theorem c2_witness :
    ((fftInternal engine0 st0 buf1 buf1 planR2C8 CUFFT_FORWARD none).error =
      some .illegalInPlaceTransform) ∧
    ((fftInternal engine0 st0 buf1 buf1 planC2C CUFFT_FORWARD none).error =
      none) :=
  ⟨(c2_in_place engine0 st0 buf1 buf1 planR2C8 CUFFT_FORWARD none rfl).1
     (by decide),
   ((c2_in_place engine0 st0 buf1 buf1 planC2C CUFFT_FORWARD none rfl).2
     (Or.inl rfl) (.scalar 4) .complex64 .complex64 7 rfl).1⟩

/-- C3 as stated is false: on the complex128 to float64 plan built by
Plan.init, a Forward execution with aliased input and output raises the
in-place error, not the direction error. -/
theorem c3_counterexample :
    Plan.init (.scalar 4) .complex128 .float64 3 = .ok planZ2D ∧
    (fftInternal engine0 st0 buf1 buf1 planZ2D CUFFT_FORWARD none).error =
      some .illegalInPlaceTransform ∧
    (fftInternal engine0 st0 buf1 buf1 planZ2D CUFFT_FORWARD none).error ≠
      some .illegalDirectionForKind := by
  refine ⟨rfl, rfl, ?_⟩
  decide

/-- C3 amended: when the device pointers differ (so the in-place rule does
not fire), Forward on a complex-input real-output plan and Inverse on a
real-input complex-output plan fail with the direction error; with aliased
pointers the in-place rule fires first instead. -/
theorem c3_direction_errors (engine : Engine) (st : DevState)
    (x_gpu y_gpu : GPUArray) (plan : Plan) (scale : Option ℚ)
    (hptr : x_gpu.gpudata ≠ y_gpu.gpudata) :
    (plan.in_dtype ∈ sctypesComplex → plan.out_dtype ∈ sctypesFloat →
      (fftInternal engine st x_gpu y_gpu plan CUFFT_FORWARD scale).error =
        some .illegalDirectionForKind) ∧
    (plan.in_dtype ∈ sctypesFloat → plan.out_dtype ∈ sctypesComplex →
      (fftInternal engine st x_gpu y_gpu plan CUFFT_INVERSE scale).error =
        some .illegalDirectionForKind) := by
  constructor
  · intro hi ho
    unfold fftInternal
    rw [if_neg (fun hc => hptr hc.1), if_pos ⟨rfl, hi, ho⟩]
  · intro hi ho
    unfold fftInternal
    rw [if_neg (fun hc => hptr hc.1), if_neg, if_pos ⟨rfl, hi, ho⟩]
    rintro ⟨hd, -, -⟩
    exact absurd hd (by decide)

/-- Witness for C3 amended: Forward on the complex128 to float64 plan with
distinct pointers raises the direction error. -/
theorem c3_witness :
    (fftInternal engine0 st0 buf1 buf2 planZ2D CUFFT_FORWARD none).error =
      some .illegalDirectionForKind :=
  (c3_direction_errors engine0 st0 buf1 buf2 planZ2D none (by decide)).1
    (by decide) (by decide)

/-- C4: the in-place rule is checked first, so a call violating both the
in-place restriction and a direction restriction reports the in-place
error. -/
theorem c4_validation_order (engine : Engine) (st : DevState)
    (x_gpu y_gpu : GPUArray) (plan : Plan) (direction : Int) (scale : Option ℚ)
    (hptr : x_gpu.gpudata = y_gpu.gpudata)
    (hkind : ¬(plan.fft_type = .c2c ∨ plan.fft_type = .z2z))
    (_hdir : (direction = CUFFT_FORWARD ∧ plan.in_dtype ∈ sctypesComplex ∧
              plan.out_dtype ∈ sctypesFloat) ∨
            (direction = CUFFT_INVERSE ∧ plan.in_dtype ∈ sctypesFloat ∧
              plan.out_dtype ∈ sctypesComplex)) :
    (fftInternal engine st x_gpu y_gpu plan direction scale).error =
      some .illegalInPlaceTransform := by
  unfold fftInternal
  rw [if_pos ⟨hptr, hkind⟩]

/-- Witness for C4: aliased Forward execution on the complex128 to float64
plan violates both rules and reports the in-place error. -/
theorem c4_witness :
    (fftInternal engine0 st0 buf1 buf1 planZ2D CUFFT_FORWARD none).error =
      some .illegalInPlaceTransform :=
  c4_validation_order engine0 st0 buf1 buf1 planZ2D CUFFT_FORWARD none rfl
    (by decide) (Or.inl ⟨rfl, by decide, by decide⟩)

/-- C5: fft always invokes the internal routine with the Forward flag and,
when scaling is requested, the input element count; ifft with the Inverse
flag and the output element count; without scaling, no factor is passed. -/
theorem c5_entry_points (engine : Engine) (st : DevState)
    (x_gpu y_gpu : GPUArray) (plan : Plan) :
    fft engine st x_gpu y_gpu plan true =
      fftInternal engine st x_gpu y_gpu plan CUFFT_FORWARD
        (some (x_gpu.size : ℚ)) ∧
    fft engine st x_gpu y_gpu plan false =
      fftInternal engine st x_gpu y_gpu plan CUFFT_FORWARD none ∧
    ifft engine st x_gpu y_gpu plan true =
      fftInternal engine st x_gpu y_gpu plan CUFFT_INVERSE
        (some (y_gpu.size : ℚ)) ∧
    ifft engine st x_gpu y_gpu plan false =
      fftInternal engine st x_gpu y_gpu plan CUFFT_INVERSE none :=
  ⟨rfl, rfl, rfl, rfl⟩

/-- C6 as stated is false: with a scale factor, the quotient goes into a
newly allocated buffer and the descriptor is repointed there; the original
device memory keeps the undivided transform result. Concretely the engine
writes 4, 6 at pointer 2, scaling by 2 allocates pointer 10 holding 2, 3
and the descriptor ends at pointer 10, not 2. -/
theorem c6_counterexample :
    Plan.init (.scalar 4) .complex64 .complex64 7 = .ok planC2C ∧
    (fftInternal engineC6 stC6 bufIn bufOut planC2C CUFFT_FORWARD
      (some 2)).error = none ∧
    bufOut.gpudata = 2 ∧
    (fftInternal engineC6 stC6 bufIn bufOut planC2C CUFFT_FORWARD
      (some 2)).y.gpudata = 10 ∧
    (fftInternal engineC6 stC6 bufIn bufOut planC2C CUFFT_FORWARD
      (some 2)).y.gpudata ≠ bufOut.gpudata ∧
    (fftInternal engineC6 stC6 bufIn bufOut planC2C CUFFT_FORWARD
      (some 2)).st.mem 2 = [4, 6] ∧
    (fftInternal engineC6 stC6 bufIn bufOut planC2C CUFFT_FORWARD
      (some 2)).st.mem 10 = [2, 3] := by
  refine ⟨rfl, rfl, rfl, rfl, by decide, by decide, ?_⟩
  norm_num [fftInternal, mkExecCall, engineStep, scaleStep, npCast,
    engineC6, stC6, bufIn, bufOut, planC2C, CUFFT_FORWARD, CUFFT_INVERSE,
    sctypesComplex, sctypesFloat]
  decide

/-- C6 amended: when a scale factor is supplied and validation passes, every
element of the post-transform output contents is divided by the factor cast
into the output dtype, but the quotient is written to a fresh buffer at the
bump pointer and the output descriptor is repointed there; memory at every
other pointer, including the original output buffer, is left as the engine
wrote it. With no scale factor the output is not rescaled: the final device
state is exactly the post-engine state, with no division and no allocation,
and the descriptor is returned unchanged. -/
theorem c6_scaling (engine : Engine) (st : DevState) (x_gpu y_gpu : GPUArray)
    (plan : Plan) (direction : Int) (s : ℚ)
    (hok : (fftInternal engine st x_gpu y_gpu plan direction
      (some s)).error = none) :
    ((fftInternal engine st x_gpu y_gpu plan direction (some s)).y =
      { y_gpu with gpudata := st.next }) ∧
    ((fftInternal engine st x_gpu y_gpu plan direction (some s)).st.mem
        st.next =
      ((engineStep engine st (mkExecCall plan x_gpu y_gpu direction)).mem
        y_gpu.gpudata).map (fun v => v / npCast y_gpu.dtype s)) ∧
    (∀ p, p ≠ st.next →
      (fftInternal engine st x_gpu y_gpu plan direction (some s)).st.mem p =
        (engineStep engine st (mkExecCall plan x_gpu y_gpu direction)).mem
          p) ∧
    ((fftInternal engine st x_gpu y_gpu plan direction none).st =
      engineStep engine st (mkExecCall plan x_gpu y_gpu direction)) ∧
    ((fftInternal engine st x_gpu y_gpu plan direction none).y = y_gpu) := by
  unfold fftInternal at hok ⊢
  split_ifs at hok ⊢
  refine ⟨rfl, ?_, fun p hp => ?_, rfl, rfl⟩
  · simp [scaleStep, engineStep]
  · simp [scaleStep, engineStep, hp]

/-- Witness for C6 amended: at the concrete scaling scenario the descriptor
is repointed to the bump pointer of the pre-call state. -/
theorem c6_witness :
    (fftInternal engineC6 stC6 bufIn bufOut planC2C CUFFT_FORWARD
      (some 2)).y = { bufOut with gpudata := stC6.next } :=
  (c6_scaling engineC6 stC6 bufIn bufOut planC2C CUFFT_FORWARD 2 rfl).1

/-- C7 as stated is false: for a length-0 shape with an unsupported dtype
pair, construction fails with the unsupported-type-combination error, not
the rank error, because the dtype dispatch runs first. -/
theorem c7_counterexample :
    Plan.init (.tuple []) .int32 .int32 0 =
      .error .unsupportedTypeCombination ∧
    FftError.unsupportedTypeCombination ≠ FftError.unsupportedRank :=
  ⟨rfl, by decide⟩

/-- C7 amended: for tuple shapes of length 0 or at least 4, construction
with a supported dtype pair fails with the rank error; with an unsupported
pair the dtype check fires first and the error is the unsupported type
combination. -/
theorem c7_rank_errors (dims : List Int) (i o : Dtype) (h : Nat)
    (hlen : dims.length = 0 ∨ 4 ≤ dims.length) :
    (∀ tf, resolveType i o = .ok tf →
      Plan.init (.tuple dims) i o h = .error .unsupportedRank) ∧
    (∀ e, resolveType i o = .error e →
      Plan.init (.tuple dims) i o h = .error .unsupportedTypeCombination) := by
  constructor
  · rintro ⟨t, f⟩ hres
    unfold Plan.init
    rw [hres]
    rcases dims with - | ⟨a, - | ⟨b, - | ⟨c, - | ⟨d, rest⟩⟩⟩⟩
    · rfl
    · rcases hlen with hlen | hlen <;> simp at hlen
    · rcases hlen with hlen | hlen <;> simp at hlen
    · rcases hlen with hlen | hlen <;> simp at hlen
    · rfl
  · intro e hres
    have he := resolveType_error_eq i o e hres
    subst he
    unfold Plan.init
    rw [hres]

/-- Witness for C7 amended: the empty tuple with the supported float32 to
complex64 pair gives the rank error, and with int32 to int32 gives the
type-combination error. -/
theorem c7_witness :
    Plan.init (.tuple []) .float32 .complex64 0 = .error .unsupportedRank ∧
    Plan.init (.tuple [1, 2, 3, 4]) .int32 .float16 0 =
      .error .unsupportedTypeCombination :=
  ⟨(c7_rank_errors [] .float32 .complex64 0 (Or.inl rfl)).1
     (.r2c, .execR2C) rfl,
   (c7_rank_errors [1, 2, 3, 4] .int32 .float16 0 (Or.inr (by decide))).2
     .unsupportedTypeCombination rfl⟩

/-- C8: every execution either passes validation and performs exactly one
primitive invocation, or fails validation with the in-place or direction
error, no invocation, and the device state and output descriptor exactly as
given. -/
theorem c8_atomic_execute (engine : Engine) (st : DevState) (x_gpu y_gpu : GPUArray)
    (plan : Plan) (direction : Int) (scale : Option ℚ) :
    ((fftInternal engine st x_gpu y_gpu plan direction scale).error = none →
      (fftInternal engine st x_gpu y_gpu plan direction scale).calls =
        [mkExecCall plan x_gpu y_gpu direction]) ∧
    (∀ e,
      (fftInternal engine st x_gpu y_gpu plan direction scale).error =
        some e →
      (e = .illegalInPlaceTransform ∨ e = .illegalDirectionForKind) ∧
      (fftInternal engine st x_gpu y_gpu plan direction scale).calls = [] ∧
      (fftInternal engine st x_gpu y_gpu plan direction scale).st = st ∧
      (fftInternal engine st x_gpu y_gpu plan direction scale).y = y_gpu) := by
  constructor
  · exact fftInternal_ok_calls engine st x_gpu y_gpu plan direction scale
  · intro e he
    unfold fftInternal at he ⊢
    split_ifs at he ⊢ with h1 h2 h3
    · injection he with he
      exact ⟨Or.inl he.symm, rfl, rfl, rfl⟩
    · injection he with he
      exact ⟨Or.inr he.symm, rfl, rfl, rfl⟩
    · injection he with he
      exact ⟨Or.inr he.symm, rfl, rfl, rfl⟩
    · cases scale <;> cases he

/-- Witness for C8: the aliased R2C execution fails leaving the state and
descriptor untouched with an empty trace. -/
theorem c8_witness :
    (fftInternal engine0 st0 buf1 buf1 planR2C8 CUFFT_FORWARD none).calls =
      [] ∧
    (fftInternal engine0 st0 buf1 buf1 planR2C8 CUFFT_FORWARD none).st =
      st0 ∧
    (fftInternal engine0 st0 buf1 buf1 planR2C8 CUFFT_FORWARD none).y =
      buf1 :=
  ((c8_atomic_execute engine0 st0 buf1 buf1 planR2C8 CUFFT_FORWARD none).2
    .illegalInPlaceTransform rfl).2

/-- C9 as stated is false: after the destructor releases the handle of the
complex-to-complex plan, execution against that plan still reports no error
and silently invokes the primitive with the released handle 7. -/
theorem c9_counterexample :
    Plan.init (.scalar 4) .complex64 .complex64 7 = .ok planC2C ∧
    planC2C.handle ∈ (planC2C.del ⟨[]⟩).destroyed ∧
    (fftInternal engine0 st0 buf1 buf2 planC2C CUFFT_FORWARD none).error =
      none ∧
    (fftInternal engine0 st0 buf1 buf2 planC2C CUFFT_FORWARD none).calls =
      [⟨.execC2C, 7, 1, 2, some CUFFT_FORWARD⟩] := by
  refine ⟨rfl, ?_, rfl, rfl⟩
  simp [Plan.del, cufftDestroy]

/-- C9 amended: execution performs no disposal check at all. For any plan
whose handle the destructor has released, any call that passes validation
still invokes the primitive, and that invocation carries the released
handle. -/
theorem c9_no_disposal_check (cs : CufftState) (engine : Engine)
    (st : DevState) (x_gpu y_gpu : GPUArray) (plan : Plan) (direction : Int)
    (scale : Option ℚ)
    (hok : (fftInternal engine st x_gpu y_gpu plan direction scale).error =
      none) :
    plan.handle ∈ (plan.del cs).destroyed ∧
    (fftInternal engine st x_gpu y_gpu plan direction scale).calls =
      [mkExecCall plan x_gpu y_gpu direction] ∧
    (mkExecCall plan x_gpu y_gpu direction).handle = plan.handle := by
  refine ⟨?_, fftInternal_ok_calls engine st x_gpu y_gpu plan direction
    scale hok, ?_⟩
  · simp [Plan.del, cufftDestroy]
  · unfold mkExecCall
    split_ifs <;> rfl

/-- Witness for C9 amended: the destroyed handle 7 of the complex plan is
still the handle of the invocation made by a later Inverse execution. -/
theorem c9_witness :
    planC2C.handle ∈ (planC2C.del ⟨[]⟩).destroyed ∧
    (fftInternal engine0 st0 buf1 buf2 planC2C CUFFT_INVERSE none).calls =
      [mkExecCall planC2C buf1 buf2 CUFFT_INVERSE] ∧
    (mkExecCall planC2C buf1 buf2 CUFFT_INVERSE).handle = planC2C.handle :=
  c9_no_disposal_check ⟨[]⟩ engine0 st0 buf1 buf2 planC2C CUFFT_INVERSE
    none rfl

/-- C10: constructing a plan from a bare scalar shape is identical to
constructing it from the corresponding 1-tuple, the stored shape is the
1-tuple, and the 1-dimensional creation call with batch 1 is used. -/
theorem c10_scalar_shape (n : Int) (i o : Dtype) (h : Nat) :
    Plan.init (.scalar n) i o h = Plan.init (.tuple [n]) i o h ∧
    (∀ p, Plan.init (.scalar n) i o h = .ok p →
      p.shape = [n] ∧ p.createCall = .plan1d n p.fft_type 1) := by
  constructor
  · rfl
  · intro p hp
    unfold Plan.init at hp
    cases hres : resolveType i o with
    | error e => rw [hres] at hp; cases hp
    | ok tf =>
      obtain ⟨t, f⟩ := tf
      rw [hres] at hp
      injection hp with hp
      subst hp
      exact ⟨rfl, rfl⟩

/-- Witness for C10: at shape 8 with the float32 to complex64 pair, scalar
and 1-tuple construction agree and the plan records the plan1d call. -/
theorem c10_witness :
    Plan.init (.scalar 8) .float32 .complex64 0 =
      Plan.init (.tuple [8]) .float32 .complex64 0 ∧
    planR2C8.shape = [8] ∧
    planR2C8.createCall = .plan1d 8 planR2C8.fft_type 1 :=
  ⟨(c10_scalar_shape 8 .float32 .complex64 0).1,
   (c10_scalar_shape 8 .float32 .complex64 0).2 planR2C8 rfl⟩

end Skcuda
